import Mathlib

/-!
Shallow embedding of the IST8310 compass driver
(src/src/main/drivers/compass_ist8310.c).

The driver talks to the chip through an I2C primitive (`i2cRead` /
`i2cWrite`), optionally probes a GPIO line, and may register an external
interrupt handler.  We model the environment (bus mock and line levels)
as plain functions, and record every externally visible call of the
driver as an `Event` in a trace, in program order.  Machine integers are
modelled as `Nat` / `Int` with explicit two's-complement reduction where
the C code stores into `int16_t`.
-/

namespace IST8310

/-- Fixed 7-bit I2C device address (`IST8310_ADDRESS`). -/
def IST8310_ADDRESS : Nat := 0x0C

/-- Data register (`IST8310_REG_DATA`). -/
def IST8310_REG_DATA : Nat := 0x03

/-- Identity register (`IST8310_REG_WHOAMI`). -/
def IST8310_REG_WHOAMI : Nat := 0x00

/-- Operating-mode control register (`IST8310_REG_CNTRL1`). -/
def IST8310_REG_CNTRL1 : Nat := 0x0A

/-- Control register 2 (`IST8310_REG_CNTRL2`), unused by the sequence. -/
def IST8310_REG_CNTRL2 : Nat := 0x0B

/-- Averaging configuration register (`IST8310_REG_AVERAGE`). -/
def IST8310_REG_AVERAGE : Nat := 0x41

/-- Single-measurement mode value (`IST8310_ODR_SINGLE`). -/
def IST8310_ODR_SINGLE : Nat := 0x01

/-- Chip identity byte (`IST8310_CHIP_ID`). -/
def IST8310_CHIP_ID : Nat := 0x10

/-- 16x averaging value (`IST8310_AVG_16`). -/
def IST8310_AVG_16 : Nat := 0x24

/-- Scale factor, `uint8_t LSB2FSV = 3` in `ist8310Read` (3 mG per LSB). -/
def LSB2FSV : Int := 3

/-- Driver configuration (`ist8310Config_t`): the io tag of the data-ready
line; tag 0 means no line configured (the C code tests `!(intTag)`). -/
structure Ist8310Config where
  intTag : Nat
deriving DecidableEq

/-- A value stored in a function-pointer slot of the capability record. -/
inductive MagFnPtr where
  | nullFn
  | ist8310InitPtr
  | ist8310ReadPtr
  | otherFn (n : Nat)
deriving DecidableEq

/-- Capability record (`mag_t`): the two function slots the driver fills. -/
structure Mag where
  init : MagFnPtr
  read : MagFnPtr
deriving DecidableEq

/-- A 3-axis sample, `int16_t magData[3]` indexed by X, Y, Z. -/
structure MagSample where
  x : Int
  y : Int
  z : Int
deriving DecidableEq

/-- Externally visible calls the driver makes, in program order. -/
inductive Event where
  | i2cWriteEv (addr reg data : Nat)
  | i2cReadEv (addr reg len : Nat)
  | delayEv (ms : Nat)
  | ioGetByTagEv (tag : Nat)
  | ioReadEv
  | extiHandlerInitEv
  | extiConfigRisingEv
  | extiEnableEv
deriving DecidableEq

/-- Mock I2C bus: `read addr reg len` yields `none` on NACK, or the byte
generator filling the caller's buffer; `write` returns the (ignored)
acknowledge status of a register write. -/
structure Bus where
  read : Nat → Nat → Nat → Option (Nat → Nat)
  write : Nat → Nat → Nat → Bool

/-- Mock environment: the bus plus the level `IORead` reports for the io
line resolved from a tag. -/
structure Env where
  bus : Bus
  lineLevel : Nat → Bool

/-- Build-time feature flags: `USE_MAG_DATA_READY_SIGNAL` and
`ENSURE_MAG_DATA_READY_IS_HIGH`. -/
structure Flags where
  useMagDataReadySignal : Bool
  ensureMagDataReadyIsHigh : Bool
deriving DecidableEq

/-- Reinterpret a nonnegative machine word as a signed 16-bit value, the
effect of the C cast `(int16_t)` applied to `buf[hi] << 8 | buf[lo]`. -/
def int16OfNat (n : Nat) : Int :=
  if n % 65536 < 32768 then ((n % 65536 : Nat) : Int)
  else ((n % 65536 : Nat) : Int) - 65536

/-- Two's-complement truncation of an `Int` into the `int16_t` range, the
effect of storing an `int` result into `int16_t magData[_]`. -/
def int16OfInt (v : Int) : Int :=
  if v % 65536 < 32768 then v % 65536 else v % 65536 - 65536

/-- Signed little-endian 16-bit decode of two buffer bytes, the C
expression `(int16_t)(buf[hi] << 8 | buf[lo])` with `buf : uint8_t[]`. -/
def decodeWord (lo hi : Nat) : Int :=
  int16OfNat (((hi % 256) <<< 8) ||| (lo % 256))

/-- Result of `ist8310Read`: return value, the caller's sample array after
the call, and the trace of external calls. -/
structure ReadResult where
  ret : Bool
  magData : MagSample
  trace : List Event
deriving DecidableEq

/-- `ist8310Read`: 6-byte burst read at the data register; on NACK return
false leaving the sample untouched; on ACK decode the three axes
(X negated, each scaled by `LSB2FSV`, stored into `int16_t`), re-arm
single-measurement mode, return true. -/
def ist8310Read (bus : Bus) (magData : MagSample) : ReadResult :=
  match bus.read IST8310_ADDRESS IST8310_REG_DATA 6 with
  | none =>
      { ret := false
        magData := magData
        trace := [Event.i2cReadEv IST8310_ADDRESS IST8310_REG_DATA 6] }
  | some buf =>
      { ret := true
        magData :=
          { x := int16OfInt (-(decodeWord (buf 0) (buf 1)) * LSB2FSV)
            y := int16OfInt (decodeWord (buf 2) (buf 3) * LSB2FSV)
            z := int16OfInt (decodeWord (buf 4) (buf 5) * LSB2FSV) }
        trace := [Event.i2cReadEv IST8310_ADDRESS IST8310_REG_DATA 6,
                  Event.i2cWriteEv IST8310_ADDRESS IST8310_REG_CNTRL1
                    IST8310_ODR_SINGLE] }

/-- `ist8310ConfigureDataReadyInterruptHandling`: under
`USE_MAG_DATA_READY_SIGNAL`, bail out if no tag is configured, resolve the
io line, under `ENSURE_MAG_DATA_READY_IS_HIGH` bail out if the line reads
low, otherwise register and enable the rising-edge interrupt handler. -/
def ist8310ConfigureDataReadyInterruptHandling (fl : Flags)
    (cfg : Ist8310Config) (env : Env) : List Event :=
  if fl.useMagDataReadySignal then
    if cfg.intTag = 0 then []
    else
      if fl.ensureMagDataReadyIsHigh then
        if env.lineLevel cfg.intTag then
          [Event.ioGetByTagEv cfg.intTag, Event.ioReadEv,
           Event.extiHandlerInitEv, Event.extiConfigRisingEv,
           Event.extiEnableEv]
        else
          [Event.ioGetByTagEv cfg.intTag, Event.ioReadEv]
      else
        [Event.ioGetByTagEv cfg.intTag,
         Event.extiHandlerInitEv, Event.extiConfigRisingEv,
         Event.extiEnableEv]
  else []

/-- `ist8310Init`: mode write, delay, averaging write, delay, one discard
read into a local array, delay, re-arm mode write, then interrupt
configuration.  The trace is returned; the discard read's sample is local
and dropped. -/
def ist8310Init (fl : Flags) (cfg : Ist8310Config) (env : Env) :
    List Event :=
  [Event.i2cWriteEv IST8310_ADDRESS IST8310_REG_CNTRL1 IST8310_ODR_SINGLE,
   Event.delayEv 5,
   Event.i2cWriteEv IST8310_ADDRESS IST8310_REG_AVERAGE IST8310_AVG_16,
   Event.delayEv 5]
  ++ (ist8310Read env.bus { x := 0, y := 0, z := 0 }).trace
  ++ [Event.delayEv 5,
      Event.i2cWriteEv IST8310_ADDRESS IST8310_REG_CNTRL1
        IST8310_ODR_SINGLE]
  ++ ist8310ConfigureDataReadyInterruptHandling fl cfg env

/-- Result of `ist8310Detect`: return value, the capability record after
the call, the process-wide configuration pointer after the call, and the
trace of external calls. -/
structure DetectResult where
  ret : Bool
  mag : Mag
  ist8310Config : Option Ist8310Config
  trace : List Event
deriving DecidableEq

/-- `ist8310Detect`: store the configuration pointer, read one identity
byte; on NACK or identity mismatch return false; otherwise fill the
capability record's init/read slots and return true.  `oldConfig` is the
process-wide pointer before the call (`static ist8310Config`). -/
def ist8310Detect (env : Env) (mag : Mag) (ist8310ConfigToUse : Ist8310Config)
    (oldConfig : Option Ist8310Config) : DetectResult :=
  match env.bus.read IST8310_ADDRESS IST8310_REG_WHOAMI 1 with
  | none =>
      { ret := false
        mag := mag
        ist8310Config := some ist8310ConfigToUse
        trace := [Event.i2cReadEv IST8310_ADDRESS IST8310_REG_WHOAMI 1] }
  | some buf =>
      let sig := buf 0 % 256
      if sig = IST8310_CHIP_ID then
        { ret := true
          mag := { init := MagFnPtr.ist8310InitPtr
                   read := MagFnPtr.ist8310ReadPtr }
          ist8310Config := some ist8310ConfigToUse
          trace := [Event.i2cReadEv IST8310_ADDRESS IST8310_REG_WHOAMI 1] }
      else
        { ret := false
          mag := mag
          ist8310Config := some ist8310ConfigToUse
          trace := [Event.i2cReadEv IST8310_ADDRESS IST8310_REG_WHOAMI 1] }

/-- Bus transactions (reads and register writes). -/
def isBusEvent : Event → Bool
  | Event.i2cWriteEv _ _ _ => true
  | Event.i2cReadEv _ _ _ => true
  | _ => false

/-- Bus transactions together with settling delays. -/
def isBusOrDelayEvent : Event → Bool
  | Event.i2cWriteEv _ _ _ => true
  | Event.i2cReadEv _ _ _ => true
  | Event.delayEv _ => true
  | _ => false

/-- Interrupt registration, configuration or enable calls. -/
def isExtiEvent : Event → Bool
  | Event.extiHandlerInitEv => true
  | Event.extiConfigRisingEv => true
  | Event.extiEnableEv => true
  | _ => false

/-- A bus whose every read NACKs. -/
def nackBus : Bus :=
  { read := fun _ _ _ => none, write := fun _ _ _ => true }

/-- A bus whose every read ACKs and fills the buffer from `buf`. -/
def constBus (buf : Nat → Nat) : Bus :=
  { read := fun _ _ _ => some buf, write := fun _ _ _ => true }

/-- Byte generator from a list, zero-padded. -/
def bufOf (l : List Nat) : Nat → Nat := fun i => l.getD i 0

/-- Environment around a bus with all io lines reading high. -/
def envOf (b : Bus) : Env :=
  { bus := b, lineLevel := fun _ => true }

/-- An all-null capability record. -/
def mag0 : Mag := { init := MagFnPtr.nullFn, read := MagFnPtr.nullFn }

/-- A configuration with no interrupt line. -/
def cfg0 : Ist8310Config := { intTag := 0 }

/-- A zero sample. -/
def sample0 : MagSample := { x := 0, y := 0, z := 0 }

/-- Environment around a bus with all io lines reading low. -/
def envLowOf (b : Bus) : Env :=
  { bus := b, lineLevel := fun _ => false }

/-- Storing an `int` value that already fits the `int16_t` range leaves it
unchanged. -/
theorem int16OfInt_eq_self (v : Int) (h1 : -32768 ≤ v) (h2 : v ≤ 32767) :
    int16OfInt v = v := by
  unfold int16OfInt
  split <;> omega

/-- Storing an `int` value into `int16_t` reduces it modulo 2^16 into the
signed 16-bit range. -/
theorem int16OfInt_wrap (v : Int) :
    (int16OfInt v - v) % 65536 = 0 ∧ -32768 ≤ int16OfInt v ∧
    int16OfInt v < 32768 := by
  unfold int16OfInt
  split <;> omega

/-- The interrupt-configuration step performs no bus transaction and no
delay, in any build and environment. -/
theorem configureTrace_no_busdelay (fl : Flags) (cfg : Ist8310Config)
    (env : Env) :
    (ist8310ConfigureDataReadyInterruptHandling fl cfg env).filter
      isBusOrDelayEvent = [] := by
  unfold ist8310ConfigureDataReadyInterruptHandling
  repeat' split
  all_goals rfl

/-- The trace of a read never contains interrupt-related calls. -/
theorem ist8310Read_trace_no_exti (bus : Bus) (s : MagSample) :
    (ist8310Read bus s).trace.filter isExtiEvent = [] := by
  unfold ist8310Read
  cases hb : bus.read IST8310_ADDRESS IST8310_REG_DATA 6 <;> rfl

/-- C3: detect returns true iff the single-byte who-am-i read is
acknowledged and delivers 0x10, and on success it fills the capability
record's init and read slots with this driver's functions. -/
theorem ist8310Detect_whoami_spec (env : Env) (mag : Mag)
    (cfg : Ist8310Config) (old : Option Ist8310Config) :
    ((ist8310Detect env mag cfg old).ret = true ↔
      ∃ buf, env.bus.read IST8310_ADDRESS IST8310_REG_WHOAMI 1 = some buf ∧
        buf 0 % 256 = IST8310_CHIP_ID) ∧
    ((ist8310Detect env mag cfg old).ret = true →
      (ist8310Detect env mag cfg old).mag =
        { init := MagFnPtr.ist8310InitPtr, read := MagFnPtr.ist8310ReadPtr }) := by
  unfold ist8310Detect
  cases hb : env.bus.read IST8310_ADDRESS IST8310_REG_WHOAMI 1 with
  | none => simp
  | some buf =>
    by_cases hs : buf 0 % 256 = IST8310_CHIP_ID <;> simp [hs]

/-- C3 witness: with a bus acknowledging and answering 0x10, detect
returns true. -/
theorem ist8310Detect_whoami_spec_witness :
    (ist8310Detect (envOf (constBus (bufOf [0x10]))) mag0 cfg0 none).ret = true :=
  (ist8310Detect_whoami_spec (envOf (constBus (bufOf [0x10]))) mag0 cfg0
    none).1.mpr ⟨bufOf [0x10], rfl, by decide⟩

/-- C4: whenever detect returns false, the capability record it was given
is returned unchanged in every field. -/
theorem ist8310Detect_failure_frame (env : Env) (mag : Mag)
    (cfg : Ist8310Config) (old : Option Ist8310Config)
    (h : (ist8310Detect env mag cfg old).ret = false) :
    (ist8310Detect env mag cfg old).mag = mag := by
  unfold ist8310Detect at h ⊢
  cases hb : env.bus.read IST8310_ADDRESS IST8310_REG_WHOAMI 1 with
  | none => rfl
  | some buf =>
    rw [hb] at h
    by_cases hs : buf 0 % 256 = IST8310_CHIP_ID
    · simp [hs] at h
    · simp [hs]

/-- C4 witness: a NACK on the who-am-i read leaves the record unchanged. -/
theorem ist8310Detect_failure_frame_witness :
    (ist8310Detect (envOf nackBus) mag0 cfg0 none).mag = mag0 :=
  ist8310Detect_failure_frame (envOf nackBus) mag0 cfg0 none rfl

/-- C9: detect overwrites the process-wide configuration pointer with its
argument regardless of the previous pointer and of the bus outcome, hence
also when it returns false. -/
theorem ist8310Detect_overwrites_config (env : Env) (mag : Mag)
    (cfg : Ist8310Config) (old : Option Ist8310Config) :
    (ist8310Detect env mag cfg old).ist8310Config = some cfg := by
  unfold ist8310Detect
  cases hb : env.bus.read IST8310_ADDRESS IST8310_REG_WHOAMI 1 with
  | none => rfl
  | some buf =>
    by_cases hs : buf 0 % 256 = IST8310_CHIP_ID <;> simp [hs]

/-- C5: when the 6-byte data read NACKs, read returns false, leaves the
caller's sample untouched, and its trace is the lone read transaction, so
no re-arm write is issued. -/
theorem ist8310Read_nack_frame (bus : Bus) (s : MagSample)
    (h : bus.read IST8310_ADDRESS IST8310_REG_DATA 6 = none) :
    (ist8310Read bus s).ret = false ∧ (ist8310Read bus s).magData = s ∧
    (ist8310Read bus s).trace =
      [Event.i2cReadEv IST8310_ADDRESS IST8310_REG_DATA 6] := by
  unfold ist8310Read
  rw [h]
  exact ⟨rfl, rfl, rfl⟩

/-- C5 witness: the NACK case at a concrete bus and sample. -/
theorem ist8310Read_nack_frame_witness :
    (ist8310Read nackBus sample0).ret = false ∧
    (ist8310Read nackBus sample0).magData = sample0 ∧
    (ist8310Read nackBus sample0).trace =
      [Event.i2cReadEv IST8310_ADDRESS IST8310_REG_DATA 6] :=
  ist8310Read_nack_frame nackBus sample0 rfl

/-- C6: when the 6-byte data read is acknowledged, read stores the decoded
sample, issues exactly one re-arm write of the single-measurement value to
the mode register after the data read, returns true, and its outcome does
not depend on the bus's acknowledge answer for writes. -/
theorem ist8310Read_success_rearm (bus : Bus) (s : MagSample)
    (buf : Nat → Nat)
    (h : bus.read IST8310_ADDRESS IST8310_REG_DATA 6 = some buf) :
    (ist8310Read bus s).ret = true ∧
    (ist8310Read bus s).magData =
      { x := int16OfInt (-(decodeWord (buf 0) (buf 1)) * LSB2FSV)
        y := int16OfInt (decodeWord (buf 2) (buf 3) * LSB2FSV)
        z := int16OfInt (decodeWord (buf 4) (buf 5) * LSB2FSV) } ∧
    (ist8310Read bus s).trace =
      [Event.i2cReadEv IST8310_ADDRESS IST8310_REG_DATA 6,
       Event.i2cWriteEv IST8310_ADDRESS IST8310_REG_CNTRL1
         IST8310_ODR_SINGLE] ∧
    (∀ w : Nat → Nat → Nat → Bool,
      ist8310Read { read := bus.read, write := w } s = ist8310Read bus s) := by
  refine ⟨?_, ?_, ?_, fun w => rfl⟩ <;>
    · unfold ist8310Read
      rw [h]

/-- C6 witness: the success case at a concrete acknowledging bus. -/
theorem ist8310Read_success_rearm_witness :
    (ist8310Read (constBus (bufOf [1, 0, 2, 0, 3, 0])) sample0).ret = true ∧
    (ist8310Read (constBus (bufOf [1, 0, 2, 0, 3, 0])) sample0).trace =
      [Event.i2cReadEv IST8310_ADDRESS IST8310_REG_DATA 6,
       Event.i2cWriteEv IST8310_ADDRESS IST8310_REG_CNTRL1
         IST8310_ODR_SINGLE] :=
  ⟨(ist8310Read_success_rearm (constBus (bufOf [1, 0, 2, 0, 3, 0])) sample0
      (bufOf [1, 0, 2, 0, 3, 0]) rfl).1,
   (ist8310Read_success_rearm (constBus (bufOf [1, 0, 2, 0, 3, 0])) sample0
      (bufOf [1, 0, 2, 0, 3, 0]) rfl).2.2.1⟩

/-- C1 counterexample: for the acknowledged buffer [0x00,0x7F,0,0,0,0] the
claimed exact value is X = -LE16(0x00,0x7F)*3 = -(32512*3) = -97536, but
the driver stores the wrapped value -32000, so the claim's universal
exact-scale equation fails. -/
theorem ist8310Read_exact_scale_counterexample :
    (ist8310Read (constBus (bufOf [0x00, 0x7F, 0, 0, 0, 0]))
      sample0).magData.x = -32000 ∧
    (ist8310Read (constBus (bufOf [0x00, 0x7F, 0, 0, 0, 0]))
      sample0).magData.x ≠ -(decodeWord 0x00 0x7F) * LSB2FSV := by
  decide

/-- C1 amended: on a successful data burst whose scaled products fit the
signed 16-bit range, read stores exactly X = -LE16(B[0..1])*3,
Y = LE16(B[2..3])*3, Z = LE16(B[4..5])*3. -/
theorem ist8310Read_exact_scale_in_range (bus : Bus) (s : MagSample)
    (buf : Nat → Nat)
    (h : bus.read IST8310_ADDRESS IST8310_REG_DATA 6 = some buf)
    (hx1 : -32768 ≤ -(decodeWord (buf 0) (buf 1)) * LSB2FSV)
    (hx2 : -(decodeWord (buf 0) (buf 1)) * LSB2FSV ≤ 32767)
    (hy1 : -32768 ≤ decodeWord (buf 2) (buf 3) * LSB2FSV)
    (hy2 : decodeWord (buf 2) (buf 3) * LSB2FSV ≤ 32767)
    (hz1 : -32768 ≤ decodeWord (buf 4) (buf 5) * LSB2FSV)
    (hz2 : decodeWord (buf 4) (buf 5) * LSB2FSV ≤ 32767) :
    (ist8310Read bus s).magData.x = -(decodeWord (buf 0) (buf 1)) * LSB2FSV ∧
    (ist8310Read bus s).magData.y = decodeWord (buf 2) (buf 3) * LSB2FSV ∧
    (ist8310Read bus s).magData.z = decodeWord (buf 4) (buf 5) * LSB2FSV := by
  unfold ist8310Read
  rw [h]
  exact ⟨int16OfInt_eq_self _ hx1 hx2, int16OfInt_eq_self _ hy1 hy2,
    int16OfInt_eq_self _ hz1 hz2⟩

/-- C1 witness: the spec's scenario buffer [0x10,0x00,0x20,0x00,0x30,0x00]
decodes to X = -48, Y = 96, Z = 144. -/
theorem ist8310Read_exact_scale_in_range_witness :
    (ist8310Read (constBus (bufOf [0x10, 0x00, 0x20, 0x00, 0x30, 0x00]))
      sample0).magData.x = -48 ∧
    (ist8310Read (constBus (bufOf [0x10, 0x00, 0x20, 0x00, 0x30, 0x00]))
      sample0).magData.y = 96 ∧
    (ist8310Read (constBus (bufOf [0x10, 0x00, 0x20, 0x00, 0x30, 0x00]))
      sample0).magData.z = 144 := by
  have h := ist8310Read_exact_scale_in_range
    (constBus (bufOf [0x10, 0x00, 0x20, 0x00, 0x30, 0x00])) sample0
    (bufOf [0x10, 0x00, 0x20, 0x00, 0x30, 0x00]) rfl
    (by decide) (by decide) (by decide) (by decide) (by decide) (by decide)
  exact ⟨h.1.trans (by decide), h.2.1.trans (by decide),
    h.2.2.trans (by decide)⟩

/-- C10: on a successful data burst, each stored axis value is congruent
modulo 2^16 to the exact product (negated raw times 3 for X, raw times 3
for Y and Z) and lies in the signed 16-bit range: the store wraps by
two's-complement truncation. -/
theorem ist8310Read_wrap16 (bus : Bus) (s : MagSample) (buf : Nat → Nat)
    (h : bus.read IST8310_ADDRESS IST8310_REG_DATA 6 = some buf) :
    (((ist8310Read bus s).magData.x -
        -(decodeWord (buf 0) (buf 1)) * LSB2FSV) % 65536 = 0 ∧
      -32768 ≤ (ist8310Read bus s).magData.x ∧
      (ist8310Read bus s).magData.x < 32768) ∧
    (((ist8310Read bus s).magData.y -
        decodeWord (buf 2) (buf 3) * LSB2FSV) % 65536 = 0 ∧
      -32768 ≤ (ist8310Read bus s).magData.y ∧
      (ist8310Read bus s).magData.y < 32768) ∧
    (((ist8310Read bus s).magData.z -
        decodeWord (buf 4) (buf 5) * LSB2FSV) % 65536 = 0 ∧
      -32768 ≤ (ist8310Read bus s).magData.z ∧
      (ist8310Read bus s).magData.z < 32768) := by
  unfold ist8310Read
  rw [h]
  exact ⟨int16OfInt_wrap _, int16OfInt_wrap _, int16OfInt_wrap _⟩

/-- C10 witness: the wrap characterization at an overflowing buffer, where
the stored X is nevertheless inside the signed 16-bit range. -/
theorem ist8310Read_wrap16_witness :
    -32768 ≤ (ist8310Read (constBus (bufOf [0x00, 0x7F, 0, 0, 0, 0]))
      sample0).magData.x ∧
    (ist8310Read (constBus (bufOf [0x00, 0x7F, 0, 0, 0, 0]))
      sample0).magData.x < 32768 :=
  ⟨(ist8310Read_wrap16 (constBus (bufOf [0x00, 0x7F, 0, 0, 0, 0])) sample0
      (bufOf [0x00, 0x7F, 0, 0, 0, 0]) rfl).1.2.1,
   (ist8310Read_wrap16 (constBus (bufOf [0x00, 0x7F, 0, 0, 0, 0])) sample0
      (bufOf [0x00, 0x7F, 0, 0, 0, 0]) rfl).1.2.2⟩

/-- C2 counterexample: with a bus that acknowledges the discard read, init
issues five bus operations, not the claimed four, because the successful
inner read itself issues a re-arm write. -/
theorem ist8310Init_four_ops_counterexample :
    ¬ ((ist8310Init
        { useMagDataReadySignal := false, ensureMagDataReadyIsHigh := false }
        cfg0 (envOf (constBus (bufOf [0, 0, 0, 0, 0, 0])))).filter
          isBusEvent =
      [Event.i2cWriteEv IST8310_ADDRESS IST8310_REG_CNTRL1 IST8310_ODR_SINGLE,
       Event.i2cWriteEv IST8310_ADDRESS IST8310_REG_AVERAGE IST8310_AVG_16,
       Event.i2cReadEv IST8310_ADDRESS IST8310_REG_DATA 6,
       Event.i2cWriteEv IST8310_ADDRESS IST8310_REG_CNTRL1
         IST8310_ODR_SINGLE]) := by
  decide

/-- C2 amended: init's bus transactions and delays are mode-write, delay,
averaging-write, delay, data read, then - only when the data read is
acknowledged - the inner read's re-arm mode-write, then delay and the
final re-arm mode-write; interrupt configuration adds no bus operation or
delay. -/
theorem ist8310Init_busdelay_sequence (fl : Flags) (cfg : Ist8310Config)
    (env : Env) :
    (ist8310Init fl cfg env).filter isBusOrDelayEvent =
      [Event.i2cWriteEv IST8310_ADDRESS IST8310_REG_CNTRL1 IST8310_ODR_SINGLE,
       Event.delayEv 5,
       Event.i2cWriteEv IST8310_ADDRESS IST8310_REG_AVERAGE IST8310_AVG_16,
       Event.delayEv 5,
       Event.i2cReadEv IST8310_ADDRESS IST8310_REG_DATA 6]
      ++ (if (env.bus.read IST8310_ADDRESS IST8310_REG_DATA 6).isSome then
            [Event.i2cWriteEv IST8310_ADDRESS IST8310_REG_CNTRL1
              IST8310_ODR_SINGLE]
          else [])
      ++ [Event.delayEv 5,
          Event.i2cWriteEv IST8310_ADDRESS IST8310_REG_CNTRL1
            IST8310_ODR_SINGLE] := by
  have hc := configureTrace_no_busdelay fl cfg env
  unfold ist8310Init
  cases hb : env.bus.read IST8310_ADDRESS IST8310_REG_DATA 6 <;>
    simp [ist8310Read, hb, List.filter_append, hc, isBusOrDelayEvent]

/-- C7: when the configuration has no interrupt tag, the interrupt
configuration step is a complete no-op and init's trace contains no
interrupt-registration, configuration or enable call, in any build. -/
theorem ist8310Init_no_tag_no_exti (fl : Flags) (cfg : Ist8310Config)
    (env : Env) (h : cfg.intTag = 0) :
    (ist8310Init fl cfg env).filter isExtiEvent = [] ∧
    ist8310ConfigureDataReadyInterruptHandling fl cfg env = [] := by
  have hc : ist8310ConfigureDataReadyInterruptHandling fl cfg env = [] := by
    simp [ist8310ConfigureDataReadyInterruptHandling, h]
  refine ⟨?_, hc⟩
  unfold ist8310Init
  rw [hc]
  simp [List.filter_append, ist8310Read_trace_no_exti, isExtiEvent]

/-- C7 witness: no interrupt calls at a concrete build and environment
with an empty interrupt tag. -/
theorem ist8310Init_no_tag_no_exti_witness :
    (ist8310Init
      { useMagDataReadySignal := true, ensureMagDataReadyIsHigh := true }
      cfg0 (envOf nackBus)).filter isExtiEvent = [] ∧
    ist8310ConfigureDataReadyInterruptHandling
      { useMagDataReadySignal := true, ensureMagDataReadyIsHigh := true }
      cfg0 (envOf nackBus) = [] :=
  ist8310Init_no_tag_no_exti
    { useMagDataReadySignal := true, ensureMagDataReadyIsHigh := true }
    cfg0 (envOf nackBus) rfl

/-- C8: with the idle-high guard compiled in, an interrupt tag configured
and the line reading low, init registers no interrupt at all, and its
trace is exactly the interrupt-free init trace followed by the io-line
resolution and the line-level probe. -/
theorem ist8310Init_idle_low_skips_exti (fl : Flags) (cfg : Ist8310Config)
    (env : Env)
    (h1 : fl.useMagDataReadySignal = true)
    (h2 : fl.ensureMagDataReadyIsHigh = true)
    (h3 : cfg.intTag ≠ 0)
    (h4 : env.lineLevel cfg.intTag = false) :
    (ist8310Init fl cfg env).filter isExtiEvent = [] ∧
    ist8310Init fl cfg env =
      ist8310Init
        { useMagDataReadySignal := false
          ensureMagDataReadyIsHigh := fl.ensureMagDataReadyIsHigh } cfg env
      ++ [Event.ioGetByTagEv cfg.intTag, Event.ioReadEv] := by
  have hc : ist8310ConfigureDataReadyInterruptHandling fl cfg env =
      [Event.ioGetByTagEv cfg.intTag, Event.ioReadEv] := by
    simp [ist8310ConfigureDataReadyInterruptHandling, h1, h2, h3, h4]
  constructor
  · unfold ist8310Init
    rw [hc]
    simp [List.filter_append, ist8310Read_trace_no_exti, isExtiEvent]
  · unfold ist8310Init
    rw [hc]
    simp [ist8310ConfigureDataReadyInterruptHandling]

/-- C8 witness: the idle-low skip at a concrete build, tag and
environment. -/
theorem ist8310Init_idle_low_skips_exti_witness :
    (ist8310Init
      { useMagDataReadySignal := true, ensureMagDataReadyIsHigh := true }
      { intTag := 5 } (envLowOf nackBus)).filter isExtiEvent = [] :=
  (ist8310Init_idle_low_skips_exti
    { useMagDataReadySignal := true, ensureMagDataReadyIsHigh := true }
    { intTag := 5 } (envLowOf nackBus) rfl rfl (by decide) rfl).1

end IST8310
